import Mathlib

/-!
Verification development for the subtitle-generator repository.

The repository is a Rust program that extracts audio from a video with
ffmpeg, transcribes it with whisper, and writes an SRT subtitle file.
This file gives a shallow embedding of the functions the claims are
about:

* src/media/subtitle.rs : format_timestamp, generate_srt_file
* src/media/audio.rs    : parse_wav_file
* src/model.rs          : ensure_model_exists
* src/whisper/transcribe.rs and src/main.rs : transcribe_audio /
  generate_subtitles (the pipeline with its cleanup step)
* src/gui/app.rs        : the foreground state machine
  (select_input_file, start_processing, reset_to_initial) and the set of
  actions the UI exposes in each state.

Rust f64 arithmetic is embedded as exact rational arithmetic together
with an explicit round-to-nearest-even function at 53 significand bits
(roundF64); machine-integer casts are embedded with their saturating
semantics.  Fallible Rust functions returning anyhow Result are embedded
as Except String.
-/

namespace SubtitleGen

/-! ## Executable rational arithmetic

The Batteries arithmetic on Rat (Rat.add, Rat.mul, ...) is marked
irreducible, so closed instances of it cannot be evaluated by the
kernel.  The definitions below are kernel-reducible equivalents built
from mkRat; the bridge theorems qmul_eq, qsub_eq, qinv_eq, qdiv_eq prove
they agree with the field operations of ℚ. -/

/-- Kernel-reducible multiplication on ℚ. -/
def qmul (a b : Rat) : Rat := mkRat (a.num * b.num) (a.den * b.den)

/-- Kernel-reducible subtraction on ℚ. -/
def qsub (a b : Rat) : Rat := mkRat (a.num * b.den - b.num * a.den) (a.den * b.den)

/-- Kernel-reducible inverse on ℚ (0 maps to 0, as in ℚ). -/
def qinv (b : Rat) : Rat := mkRat (b.den * Int.sign b.num) b.num.natAbs

/-- Kernel-reducible division on ℚ. -/
def qdiv (a b : Rat) : Rat := qmul a (qinv b)

/-! ## IEEE-754 binary64 emulation

A finite f64 value is a dyadic rational.  Addition-free chains of f64
operations are embedded by applying the exact rational operation and
then rounding the result to 53 significand bits, round to nearest, ties
to even (the default IEEE-754 rounding of Rust f64 arithmetic).  The
f64 remainder (the Rust % operator on floats, C fmod) of two doubles is
always exactly representable, so it is embedded without a rounding
step.  A decimal f64 literal of the Rust source denotes the rounding of
the decimal value. -/

/-- Fuel-driven floor of log base 2 on Nat (0 for inputs 0 and 1); with
fuel at least the input it equals the mathematical floor of log2. -/
def log2fuel : Nat → Nat → Nat
  | 0, _ => 0
  | fuel + 1, n => if 2 ≤ n then log2fuel fuel (n / 2) + 1 else 0

/-- Power of two with integer exponent, as a rational. -/
def qpow2 (e : Int) : Rat :=
  if 0 ≤ e then mkRat ((2 ^ e.toNat : Nat) : Int) 1 else mkRat 1 (2 ^ (-e).toNat)

/-- Round a rational to the nearest integer, ties to even. -/
def roundHalfEven (x : Rat) : Int :=
  let n : Int := ⌊x⌋
  let f : Rat := qsub x (mkRat n 1)
  if f < mkRat 1 2 then n
  else if mkRat 1 2 < f then n + 1
  else if n % 2 = 0 then n else n + 1

/-- Floor of log base 2 of a positive rational. -/
def ilog2q (q : Rat) : Int :=
  if 1 ≤ q then (log2fuel (Int.toNat ⌊q⌋) (Int.toNat ⌊q⌋) : Int)
  else
    let l : Int := (log2fuel (Int.toNat ⌈qinv q⌉) (Int.toNat ⌈qinv q⌉) : Int)
    if qpow2 (-l) ≤ q then -l else -(l + 1)

/-- Round a rational to the nearest IEEE-754 binary64 value: keep 53
significand bits, round to nearest, ties to even.  (Exponent range is
not modelled; all values appearing in the claims are far from overflow
and underflow.) -/
def roundF64 (q : Rat) : Rat :=
  if q = 0 then 0
  else if q < 0 then
    qmul (mkRat (-(roundHalfEven (qmul (-q) (qpow2 (52 - ilog2q (-q)))))) 1)
      (qpow2 (ilog2q (-q) - 52))
  else
    qmul (mkRat (roundHalfEven (qmul q (qpow2 (52 - ilog2q q)))) 1)
      (qpow2 (ilog2q q - 52))

/-- Truncation toward zero (the rounding used by Rust float-to-integer
casts and by the f64 remainder). -/
def ratTrunc (x : Rat) : Int := if 0 ≤ x then ⌊x⌋ else ⌈x⌉

/-- The Rust % operator on f64 (C fmod): remainder with the sign of the
dividend.  Exact on doubles, hence no rounding step. -/
def fmodQ (a b : Rat) : Rat := qsub a (qmul b (mkRat (ratTrunc (qdiv a b)) 1))

/-- The Rust cast expression from f64 to u32: truncate toward zero and
saturate to the range of u32. -/
def toU32 (q : Rat) : Nat :=
  if q < 0 then 0 else min (Int.toNat ⌊q⌋) (2 ^ 32 - 1)

/-! ## src/media/subtitle.rs -/

/-- Zero-padded 2-digit decimal rendering, Rust format spec {:02}. -/
def pad2 (n : Nat) : String := if n < 10 then "0" ++ toString n else toString n

/-- Zero-padded 3-digit decimal rendering, Rust format spec {:03}. -/
def pad3 (n : Nat) : String :=
  if n < 10 then "00" ++ toString n
  else if n < 100 then "0" ++ toString n
  else toString n

/-- Embedding of format_timestamp (src/media/subtitle.rs).  The Rust
source computes, on f64:
  hours     = (seconds / 3600.0) as u32
  minutes   = ((seconds % 3600.0) / 60.0) as u32
  secs      = (seconds % 60.0) as u32
  millisecs = ((seconds % 1.0) * 1000.0) as u32
and renders "{:02}:{:02}:{:02},{:03}".  Divisions and the
multiplication round to nearest binary64; the f64 remainder is exact. -/
def format_timestamp (seconds : Rat) : String :=
  let hours := toU32 (roundF64 (qdiv seconds 3600))
  let minutes := toU32 (roundF64 (qdiv (fmodQ seconds 3600) 60))
  let secs := toU32 (fmodQ seconds 60)
  let millisecs := toU32 (roundF64 (qmul (fmodQ seconds 1) 1000))
  pad2 hours ++ ":" ++ pad2 minutes ++ ":" ++ pad2 secs ++ "," ++ pad3 millisecs

/-- Abstraction of a whisper_rs WhisperState after a completed run: the
number of segments and the per-index getters full_get_segment_text,
full_get_segment_t0, full_get_segment_t1 (taken as total functions; the
embedding models the run on which every getter call succeeds, which is
the only run on which generate_srt_file writes a document). -/
structure WhisperStateM where
  n_segments : Nat
  seg_text : Nat → String
  seg_t0 : Nat → Int
  seg_t1 : Nat → Int

/-- Conversion of an engine timestamp to seconds as done by the source:
the i64 centisecond value t is cast to f64 (a rounding for huge values)
and divided by 100.0 (a rounding). -/
def segSeconds (t : Int) : Rat := roundF64 (qdiv (roundF64 (mkRat t 1)) 100)

/-- The body of the for-loop of generate_srt_file
(src/media/subtitle.rs): iterating i upward while k segments remain,
each iteration writes four lines: the number i+1, the time-range line,
the trimmed segment text, and an empty line. -/
def srtLoop (st : WhisperStateM) : Nat → Nat → String
  | _, 0 => ""
  | i, k + 1 =>
    toString (i + 1) ++ "\n" ++
    (format_timestamp (segSeconds (st.seg_t0 i)) ++ " --> " ++
      format_timestamp (segSeconds (st.seg_t1 i))) ++ "\n" ++
    (st.seg_text i).trim ++ "\n" ++
    "\n" ++
    srtLoop st (i + 1) k

/-- Embedding of generate_srt_file (src/media/subtitle.rs): the content
written to the output file (File::create truncates, so the content is
exactly the concatenation of the writeln calls). -/
def generate_srt_file (st : WhisperStateM) : String := srtLoop st 0 st.n_segments

/-- One transcription segment as the spec describes it. -/
structure Segment where
  text : String
  t0 : Int
  t1 : Int

/-- The sequence of segments produced by the engine, in engine order. -/
def segments (st : WhisperStateM) : List Segment :=
  (List.range st.n_segments).map (fun i => ⟨st.seg_text i, st.seg_t0 i, st.seg_t1 i⟩)

/-- Concatenation of a list of strings. -/
def strConcat : List String → String
  | [] => ""
  | s :: rest => s ++ strConcat rest

/-- Modelled from the spec: one SRT block for sequence number k and
segment s — the number on its own line, the START --> END line with the
centisecond timestamps divided by 100, the trimmed text, one blank
line. -/
def srtBlock (k : Nat) (s : Segment) : String :=
  toString k ++ "\n" ++
  (format_timestamp (segSeconds s.t0) ++ " --> " ++ format_timestamp (segSeconds s.t1)) ++ "\n" ++
  s.text.trim ++ "\n" ++
  "\n"

/-- Modelled from the spec: the SRT document for a segment list — one
block per segment, in input order, with sequence numbers assigned by
position starting from k. -/
def srtDocFrom (k : Nat) : List Segment → String
  | [] => ""
  | s :: rest => srtBlock k s ++ srtDocFrom (k + 1) rest

/-- Modelled from the spec: the whole SRT document, sequence numbers
1, 2, 3, ... by position. -/
def srtDoc (segs : List Segment) : String := srtDocFrom 1 segs

/-! ## src/media/audio.rs -/

/-- The sample format field of a hound WAV header. -/
inductive SampleFormat where
  | Float : SampleFormat
  | Int : SampleFormat
deriving DecidableEq

/-- The fields of a hound WAV header that parse_wav_file inspects. -/
structure WavHeader where
  channels : Nat
  sample_format : SampleFormat
  sample_rate : Nat
  bits_per_sample : Nat
deriving DecidableEq

/-- Embedding of parse_wav_file (src/media/audio.rs; src/main.rs holds
an identical copy).  The opened reader is abstracted as its header and
its sample iterator, each sample being the hound decode result for one
data-section entry (ok value or decode error).  The function checks the
four header properties in source order and bails with the corresponding
message; otherwise it collects the samples, keeping only the Ok values
(filter_map over Result::ok). -/
def parse_wav_file (header : WavHeader) (data : List (Except String Int)) :
    Except String (List Int) :=
  if header.channels ≠ 1 then .error "期望单声道音频文件"
  else if header.sample_format ≠ SampleFormat.Int then .error "期望整数样本格式"
  else if header.sample_rate ≠ 16000 then .error "期望16KHz采样率"
  else if header.bits_per_sample ≠ 16 then .error "期望16位每样本"
  else .ok (data.filterMap Except.toOption)

/-- The error messages of the header checks that the given header
violates, in source order. -/
def headerViolations (header : WavHeader) : List String :=
  (if header.channels ≠ 1 then ["期望单声道音频文件"] else []) ++
  (if header.sample_format ≠ SampleFormat.Int then ["期望整数样本格式"] else []) ++
  (if header.sample_rate ≠ 16000 then ["期望16KHz采样率"] else []) ++
  (if header.bits_per_sample ≠ 16 then ["期望16位每样本"] else [])

/-- A header satisfying the four required properties. -/
def validHeader (header : WavHeader) : Prop :=
  header.channels = 1 ∧ header.sample_format = SampleFormat.Int ∧
    header.sample_rate = 16000 ∧ header.bits_per_sample = 16

instance (header : WavHeader) : Decidable (validHeader header) := by
  unfold validHeader
  infer_instance

/-! ## src/model.rs -/

/-- PathBuf::join for the paths the model store builds. -/
def path_join (dir name : String) : String := dir ++ "/" ++ name

/-- Abstraction of the filesystem as seen by ensure_model_exists: which
paths exist. -/
structure FsView where
  path_exists : String → Bool

/-- Embedding of ensure_model_exists (src/model.rs).  get_models_dir is
abstracted as the models_dir argument.  The returned Bool records
whether download_model was invoked (the only network access of the
function).  The source: join the model name onto the models directory;
if that path does not exist, download; return the path. -/
def ensure_model_exists (fs : FsView) (models_dir model_name : String) :
    String × Bool :=
  let model_path := path_join models_dir model_name
  if fs.path_exists model_path = false then (model_path, true) else (model_path, false)

/-! ## src/whisper/transcribe.rs and src/main.rs -/

/-- The anyhow Context combinator: attach a context message to an
underlying error. -/
def ctxWrap (c e : String) : String := c ++ ": " ++ e

/-- Oracle for one run of the pipeline: the outcome of every effectful
stage, in the order transcribe_audio performs them, plus the state of
the temporary WAV file when the cleanup step is reached.  Stage
results are given as the stage functions return them (for the library
calls, before the .context wrapper that transcribe_audio adds). -/
structure PipelineEnv where
  input : String
  video_exists : Bool
  check_model : Except String String
  extract_audio : Except String Unit
  parse_wav : Except String (List Int)
  convert_samples : Except String Unit
  load_model : Except String Unit
  create_state : Except String Unit
  run_full : Except String Unit
  write_srt : Except String Unit
  temp_exists : Bool
  remove_temp : Except String Unit

/-- Embedding of transcribe_audio (src/whisper/transcribe.rs).  Returns
the function result together with a Bool recording whether
fs::remove_file on the temporary audio file was invoked.  Each ? in the
source is an early return of the error; .context wrappers are those of
the source. -/
def transcribe_audio (env : PipelineEnv) : Except String Unit × Bool :=
  if env.video_exists = false then (.error ("视频文件不存在: " ++ env.input), false)
  else match env.check_model with
  | .error e => (.error e, false)
  | .ok _ =>
    match env.extract_audio with
    | .error e => (.error e, false)
    | .ok _ =>
      match env.parse_wav with
      | .error e => (.error e, false)
      | .ok _ =>
        match env.convert_samples with
        | .error e => (.error (ctxWrap "无法转换音频样本" e), false)
        | .ok _ =>
          match env.load_model with
          | .error e => (.error (ctxWrap "无法加载Whisper模型" e), false)
          | .ok _ =>
            match env.create_state with
            | .error e => (.error (ctxWrap "无法创建状态" e), false)
            | .ok _ =>
              match env.run_full with
              | .error e => (.error (ctxWrap "转录失败" e), false)
              | .ok _ =>
                match env.write_srt with
                | .error e => (.error e, false)
                | .ok _ =>
                  if env.temp_exists then
                    match env.remove_temp with
                    | .error e => (.error (ctxWrap "无法删除临时音频文件" e), true)
                    | .ok _ => (.ok (), true)
                  else (.ok (), false)

/-- generate_subtitles (src/main.rs) is a line-for-line copy of
transcribe_audio (src/whisper/transcribe.rs), so its embedding is the
same function of the same oracle. -/
def generate_subtitles (env : PipelineEnv) : Except String Unit × Bool :=
  transcribe_audio env

/-- All stages up to and including subtitle writing succeed. -/
def stagesOk (env : PipelineEnv) : Bool :=
  env.video_exists && env.check_model.isOk && env.extract_audio.isOk &&
    env.parse_wav.isOk && env.convert_samples.isOk && env.load_model.isOk &&
    env.create_state.isOk && env.run_full.isOk && env.write_srt.isOk

/-! ## src/gui/app.rs -/

/-- The GUI application status (enum AppStatus of src/gui/app.rs). -/
inductive AppStatus where
  | Initial : AppStatus
  | FileSelected : AppStatus
  | Processing : AppStatus
  | Completed : AppStatus
  | SaveSuccess : AppStatus
  | Error : String → AppStatus
deriving DecidableEq

/-- The shared progress record (struct ProgressInfo of src/gui/app.rs);
the f32 progress field is embedded as a rational. -/
structure ProgressInfo where
  status : AppStatus
  message : String
  progress : Rat
  subtitle_content : Option String
deriving DecidableEq

/-- The fields of struct VideoSubtitleApp that the state machine
reads and writes. -/
structure VideoSubtitleApp where
  input_path : Option String
  output_path : Option String
  language : String
  model : String
  progress_info : ProgressInfo
deriving DecidableEq

/-- Embedding of reset_to_initial (src/gui/app.rs). -/
def reset_to_initial (app : VideoSubtitleApp) : VideoSubtitleApp :=
  { app with
    input_path := none
    output_path := none
    progress_info :=
      { status := AppStatus.Initial
        message := "请选择视频文件"
        progress := 0
        subtitle_content := none } }

/-- Outcome of the rfd file dialog: a picked path, or cancellation. -/
inductive DialogResult where
  | picked : String → DialogResult
  | cancelled : DialogResult

/-- Embedding of select_input_file (src/gui/app.rs).  If the dialog
returns a path, record it and set the status to FileSelected; if the
dialog is cancelled and the current status is FileSelected, reset to
the initial state, otherwise leave the state unchanged. -/
def select_input_file (app : VideoSubtitleApp) (dlg : DialogResult) : VideoSubtitleApp :=
  match dlg with
  | .picked p =>
    { app with
      input_path := some p
      progress_info :=
        { app.progress_info with
          status := AppStatus.FileSelected
          message := "文件已选择，请点击生成字幕" } }
  | .cancelled =>
    if app.progress_info.status = AppStatus.FileSelected then reset_to_initial app else app

/-- Embedding of the synchronous part of start_processing
(src/gui/app.rs).  Returns the updated state and a Bool recording
whether thread::spawn was invoked (a background pipeline run started).
The source checks only that an input file is selected; on success it
sets the shared status to Processing and spawns the worker thread. -/
def start_processing (app : VideoSubtitleApp) : VideoSubtitleApp × Bool :=
  match app.input_path with
  | none =>
    ({ app with
        progress_info := { app.progress_info with
          status := AppStatus.Error "请先选择输入文件" } }, false)
  | some _ =>
    ({ app with
        progress_info := { app.progress_info with
          status := AppStatus.Processing
          message := "正在生成字幕..."
          progress := 0 } }, true)

/-- The interactive controls of the GUI. -/
inductive UiAction where
  | selectFile : UiAction
  | reselect : UiAction
  | start : UiAction
  | save : UiAction
  | reset : UiAction
deriving DecidableEq

/-- The actions render_main_panel (src/gui/app.rs) exposes in each
status: Initial shows the file-selection button; FileSelected shows
the reselect and the generate buttons; Processing shows only a text
label and no button; Completed shows the save button; SaveSuccess and
Error show the reset button. -/
def uiActions : AppStatus → List UiAction
  | AppStatus.Initial => [UiAction.selectFile]
  | AppStatus.FileSelected => [UiAction.reselect, UiAction.start]
  | AppStatus.Processing => []
  | AppStatus.Completed => [UiAction.save]
  | AppStatus.SaveSuccess => [UiAction.reset]
  | AppStatus.Error _ => [UiAction.reset]

/-! ## Bridge theorems: the executable rational operations agree with
the field operations of ℚ. -/

theorem mkRat_as_div (n : Int) (d : Nat) : mkRat n d = (n : Rat) / (d : Rat) := by
  rw [Rat.mkRat_eq_divInt, Rat.divInt_eq_div]
  norm_cast

theorem qmul_eq (a b : Rat) : qmul a b = a * b := by
  rw [qmul, mkRat_as_div]
  push_cast
  rw [← div_mul_div_comm, Rat.num_div_den, Rat.num_div_den]

theorem qsub_eq (a b : Rat) : qsub a b = a - b := by
  rw [qsub, mkRat_as_div]
  push_cast
  rw [sub_div, mul_comm (b.num : Rat) (a.den : Rat),
    ← div_mul_div_comm, ← div_mul_div_comm, Rat.num_div_den, Rat.num_div_den,
    div_self (by exact_mod_cast b.den_nz), div_self (by exact_mod_cast a.den_nz),
    mul_one, one_mul]

theorem qinv_eq (b : Rat) : qinv b = b⁻¹ := by
  rcases lt_trichotomy b.num 0 with h | h | h
  · rw [qinv, Int.sign_eq_neg_one_of_neg h, mkRat_as_div]
    push_cast [Int.cast_natAbs]
    rw [abs_of_neg (show (b.num : Rat) < 0 by exact_mod_cast h)]
    rw [mul_neg_one, neg_div_neg_eq]
    conv_rhs => rw [← Rat.num_div_den b]
    rw [inv_div]
  · rw [qinv, h, Int.sign_zero, mkRat_as_div]
    simp [Rat.num_eq_zero.mp h]
  · rw [qinv, Int.sign_eq_one_of_pos h, mkRat_as_div]
    push_cast [Int.cast_natAbs]
    rw [abs_of_pos (show (0 : Rat) < b.num by exact_mod_cast h)]
    rw [mul_one]
    conv_rhs => rw [← Rat.num_div_den b]
    rw [inv_div]

theorem qdiv_eq (a b : Rat) : qdiv a b = a / b := by
  rw [qdiv, qmul_eq, qinv_eq, div_eq_mul_inv]

theorem qpow2_eq (e : Int) : qpow2 e = (2 : Rat) ^ e := by
  rcases le_or_lt 0 e with h | h
  · rw [qpow2, if_pos h, mkRat_as_div]
    push_cast
    rw [div_one, ← zpow_natCast, Int.toNat_of_nonneg h]
  · rw [qpow2, if_neg (not_le.mpr h), mkRat_as_div]
    push_cast
    rw [one_div, ← zpow_natCast, Int.toNat_of_nonneg (by omega : (0:Int) ≤ -e), ← zpow_neg,
      neg_neg]

/-- Sanity check of the rounding function on the classic example: the
binary64 value nearest to 1/10. -/
theorem roundF64_tenth : roundF64 (mkRat 1 10) = mkRat 3602879701896397 36028797018963968 := by
  decide

/-- Sanity check: roundF64 is the identity on a representable dyadic. -/
theorem roundF64_half : roundF64 (mkRat 1 2) = mkRat 1 2 := by decide

/-! ## Claims C1 and C2: the cleanup step of the pipeline. -/

/-- Helper: the cleanup step of transcribe_audio is reached exactly on
the success path. -/
theorem transcribe_audio_cleanup_char (env : PipelineEnv) :
    (transcribe_audio env).2 = (stagesOk env && env.temp_exists) := by
  obtain ⟨inp, v, cm, ea, pw, cs, lm, st, rf, ws, te, rt⟩ := env
  cases v <;> cases cm <;> cases ea <;> cases pw <;> cases cs <;> cases lm <;>
    cases st <;> cases rf <;> cases ws <;> cases te <;> cases rt <;> rfl

/-- C1 (amended): removal of the temporary PCM audio file is attempted
exactly on the success path: fs::remove_file is invoked if and only if
every stage up to and including subtitle writing succeeded and the
temporary file still exists; when any stage returns an error, the early
return skips the cleanup step entirely.  This holds for both
transcribe_audio and its copy generate_subtitles. -/
theorem cleanup_only_on_success_path (env : PipelineEnv) :
    (transcribe_audio env).2 = (stagesOk env && env.temp_exists) ∧
      (generate_subtitles env).2 = (stagesOk env && env.temp_exists) :=
  ⟨transcribe_audio_cleanup_char env, transcribe_audio_cleanup_char env⟩

/-- A run in which audio extraction fails and every other stage oracle
would succeed; the temporary file exists. -/
def envExtractFail : PipelineEnv :=
  ⟨"video.mp4", true, Except.ok "models/ggml-medium-q8_0.bin",
    Except.error "FFmpeg命令失败: boom", Except.ok [], Except.ok (), Except.ok (),
    Except.ok (), Except.ok (), Except.ok (), true, Except.ok ()⟩

/-- C1 counterexample: on a run whose audio-extraction stage fails, the
pipeline returns the error and removal of the temporary file is NOT
attempted, refuting the claim that removal is attempted on every exit
path. -/
theorem cleanup_not_attempted_on_stage_error :
    transcribe_audio envExtractFail = (Except.error "FFmpeg命令失败: boom", false) := rfl

/-- C2 (amended): when every stage up to and including subtitle writing
succeeds and the temporary file exists but its removal fails, the
cleanup failure IS propagated: transcribe_audio (and generate_subtitles)
returns the cleanup error, wrapped in the context 无法删除临时音频文件,
as the run's result — not success. -/
theorem cleanup_failure_propagates (env : PipelineEnv) (e : String)
    (hok : stagesOk env = true) (hte : env.temp_exists = true)
    (hrm : env.remove_temp = Except.error e) :
    transcribe_audio env = (Except.error (ctxWrap "无法删除临时音频文件" e), true) ∧
      generate_subtitles env = (Except.error (ctxWrap "无法删除临时音频文件" e), true) := by
  obtain ⟨inp, v, cm, ea, pw, cs, lm, st, rf, ws, te, rt⟩ := env
  subst hrm
  subst hte
  cases v <;> cases cm <;> cases ea <;> cases pw <;> cases cs <;> cases lm <;>
    cases st <;> cases rf <;> cases ws <;>
    simp_all [stagesOk, transcribe_audio, generate_subtitles, Except.isOk, Except.toBool]

/-- A run in which every stage succeeds, the temporary file exists, and
its removal fails. -/
def envCleanupFail : PipelineEnv :=
  ⟨"video.mp4", true, Except.ok "models/ggml-medium-q8_0.bin",
    Except.ok (), Except.ok [1, 2, 3], Except.ok (), Except.ok (),
    Except.ok (), Except.ok (), Except.ok (), true, Except.error "Permission denied"⟩

theorem cleanup_failure_propagates_witness :
    stagesOk envCleanupFail = true ∧ envCleanupFail.temp_exists = true ∧
      envCleanupFail.remove_temp = Except.error "Permission denied" ∧
      transcribe_audio envCleanupFail =
        (Except.error (ctxWrap "无法删除临时音频文件" "Permission denied"), true) :=
  ⟨rfl, rfl, rfl,
    (cleanup_failure_propagates envCleanupFail "Permission denied" rfl rfl rfl).1⟩

/-- C2 counterexample: on a run in which all stages succeed but the
temporary-file removal fails, transcribe_audio does NOT return success:
it returns the cleanup error, refuting the claim that a cleanup failure
leaves the run's terminal outcome a success. -/
theorem cleanup_failure_changes_outcome :
    transcribe_audio envCleanupFail =
      (Except.error "无法删除临时音频文件: Permission denied", true) ∧
      Except.isOk (transcribe_audio envCleanupFail).1 = false :=
  ⟨rfl, rfl⟩

/-! ## Claim C3: single run in flight. -/

/-- C3 (amended): the start action is unreachable while Processing
because render_main_panel exposes the generate button only in status
FileSelected; start_processing itself does not consult the status — it
spawns a background run whenever an input file is selected (and only
then), whatever the current status is. -/
theorem start_exposed_only_in_fileselected :
    (∀ s : AppStatus, UiAction.start ∈ uiActions s ↔ s = AppStatus.FileSelected) ∧
      (∀ app : VideoSubtitleApp,
        (start_processing app).2 = true ↔ app.input_path.isSome = true) := by
  constructor
  · intro s
    cases s <;> simp [uiActions]
  · intro app
    obtain ⟨ip, op, lang, mdl, pi⟩ := app
    cases ip <;> simp [start_processing]

theorem start_exposed_only_in_fileselected_witness :
    (UiAction.start ∈ uiActions AppStatus.FileSelected) ∧
      ¬ (UiAction.start ∈ uiActions AppStatus.Processing) :=
  ⟨(start_exposed_only_in_fileselected.1 AppStatus.FileSelected).mpr rfl,
    fun h => by
      have := (start_exposed_only_in_fileselected.1 AppStatus.Processing).mp h
      exact absurd this (by decide)⟩

/-- A GUI state whose shared status is Processing while an input file
is selected (the state the worker thread runs in). -/
def appProcessing : VideoSubtitleApp :=
  ⟨some "a.mp4", none, "auto", "ggml-medium-q8_0.bin",
    ⟨AppStatus.Processing, "正在生成字幕...", 0, none⟩⟩

/-- C3 counterexample: invoking start_processing while the shared
status is Processing neither rejects the request nor is a no-op — it
spawns another background run (thread::spawn is invoked) and sets the
status to Processing again, refuting the claim as stated about the
start operation itself. -/
theorem start_processing_spawns_while_processing :
    appProcessing.progress_info.status = AppStatus.Processing ∧
      (start_processing appProcessing).2 = true ∧
      (start_processing appProcessing).1.progress_info.status = AppStatus.Processing :=
  ⟨rfl, rfl, rfl⟩

/-! ## Claim C8: reselect from FileSelected. -/

/-- C8 (amended): from status FileSelected, reselect keeps the machine
in FileSelected when the dialog returns a file, but a cancelled dialog
resets the machine to Initial (select_input_file calls reset_to_initial
exactly when the current status is FileSelected). -/
theorem reselect_from_fileselected (app : VideoSubtitleApp)
    (h : app.progress_info.status = AppStatus.FileSelected) :
    (∀ p : String,
      (select_input_file app (DialogResult.picked p)).progress_info.status =
        AppStatus.FileSelected) ∧
      (select_input_file app DialogResult.cancelled).progress_info.status =
        AppStatus.Initial := by
  constructor
  · intro p
    rfl
  · simp [select_input_file, h, reset_to_initial]

/-- A GUI state in status FileSelected. -/
def appFileSelected : VideoSubtitleApp :=
  ⟨some "a.mp4", none, "auto", "ggml-medium-q8_0.bin",
    ⟨AppStatus.FileSelected, "文件已选择，请点击生成字幕", 0, none⟩⟩

theorem reselect_from_fileselected_witness :
    appFileSelected.progress_info.status = AppStatus.FileSelected ∧
      (select_input_file appFileSelected (DialogResult.picked "b.mp4")).progress_info.status =
        AppStatus.FileSelected ∧
      (select_input_file appFileSelected DialogResult.cancelled).progress_info.status =
        AppStatus.Initial :=
  ⟨rfl, (reselect_from_fileselected appFileSelected rfl).1 "b.mp4",
    (reselect_from_fileselected appFileSelected rfl).2⟩

/-- C8 counterexample: from FileSelected, a cancelled reselect dialog
leaves the machine in Initial, not FileSelected, refuting the claim
that reselect always leaves the machine in FileSelected. -/
theorem reselect_cancel_resets_to_initial :
    appFileSelected.progress_info.status = AppStatus.FileSelected ∧
      (select_input_file appFileSelected DialogResult.cancelled).progress_info.status ≠
        AppStatus.FileSelected :=
  ⟨rfl, by decide⟩

/-! ## Claim C6: the model store downloads only when the file is
absent. -/

/-- C6: when the resolved local model path already exists,
ensure_model_exists returns that path and download_model — the only
network access of the function — is not invoked. -/
theorem ensure_model_exists_no_download (fs : FsView) (models_dir model_name : String)
    (h : fs.path_exists (path_join models_dir model_name) = true) :
    ensure_model_exists fs models_dir model_name =
      (path_join models_dir model_name, false) := by
  simp [ensure_model_exists, h]

/-- A filesystem on which every path exists. -/
def fsAllPresent : FsView := ⟨fun _ => true⟩

theorem ensure_model_exists_no_download_witness :
    fsAllPresent.path_exists (path_join "models" "ggml-medium-q8_0.bin") = true ∧
      ensure_model_exists fsAllPresent "models" "ggml-medium-q8_0.bin" =
        (path_join "models" "ggml-medium-q8_0.bin", false) :=
  ⟨rfl, ensure_model_exists_no_download fsAllPresent "models" "ggml-medium-q8_0.bin" rfl⟩

/-! ## Claim C7: WAV header validation. -/

/-- C7: whatever the decode tool reported, a header violating any of
the four required properties (mono, integer samples, 16000 Hz, 16 bits
per sample) makes parse_wav_file return an error whose message names a
violated check, and a header satisfying all four never yields a format
error: the result is an Ok sample list. -/
theorem parse_wav_file_header_validation (header : WavHeader)
    (data : List (Except String Int)) :
    (¬ validHeader header →
      ∃ msg, parse_wav_file header data = Except.error msg ∧
        msg ∈ headerViolations header) ∧
      (validHeader header → ∃ l, parse_wav_file header data = Except.ok l) := by
  constructor
  · intro hviol
    by_cases h1 : header.channels = 1
    · by_cases h2 : header.sample_format = SampleFormat.Int
      · by_cases h3 : header.sample_rate = 16000
        · by_cases h4 : header.bits_per_sample = 16
          · exact absurd ⟨h1, h2, h3, h4⟩ hviol
          · exact ⟨"期望16位每样本",
              by simp [parse_wav_file, h1, h2, h3, h4],
              by simp [headerViolations, h1, h2, h3, h4]⟩
        · exact ⟨"期望16KHz采样率",
            by simp [parse_wav_file, h1, h2, h3],
            by simp [headerViolations, h1, h2, h3]⟩
      · exact ⟨"期望整数样本格式",
          by simp [parse_wav_file, h1, h2],
          by simp [headerViolations, h1, h2]⟩
    · exact ⟨"期望单声道音频文件",
        by simp [parse_wav_file, h1],
        by simp [headerViolations, h1]⟩
  · rintro ⟨h1, h2, h3, h4⟩
    exact ⟨data.filterMap Except.toOption, by simp [parse_wav_file, h1, h2, h3, h4]⟩

theorem parse_wav_file_header_validation_witness :
    (¬ validHeader ⟨2, SampleFormat.Int, 16000, 16⟩ ∧
      ∃ msg, parse_wav_file ⟨2, SampleFormat.Int, 16000, 16⟩ [] = Except.error msg ∧
        msg ∈ headerViolations ⟨2, SampleFormat.Int, 16000, 16⟩) ∧
      (validHeader ⟨1, SampleFormat.Int, 16000, 16⟩ ∧
        ∃ l, parse_wav_file ⟨1, SampleFormat.Int, 16000, 16⟩ [] = Except.ok l) :=
  ⟨⟨by decide, (parse_wav_file_header_validation ⟨2, SampleFormat.Int, 16000, 16⟩ []).1
      (by decide)⟩,
    ⟨by decide, (parse_wav_file_header_validation ⟨1, SampleFormat.Int, 16000, 16⟩ []).2
      (by decide)⟩⟩

/-! ## Claim C10: undecodable samples are discarded, never an error. -/

/-- Helper: the kept samples, re-wrapped in Ok, form a sublist of the
original decode results — they come from the input in order. -/
theorem filterMap_toOption_sublist (data : List (Except String Int)) :
    ((data.filterMap Except.toOption).map
      (fun v => (Except.ok v : Except String Int))).Sublist data := by
  induction data with
  | nil => simp
  | cons x rest ih =>
    cases x with
    | ok v =>
      simp only [List.filterMap_cons, Except.toOption, List.map_cons]
      exact List.Sublist.cons₂ (Except.ok v) ih
    | error e =>
      simp only [List.filterMap_cons, Except.toOption]
      exact List.Sublist.cons (Except.error e) ih

/-- C10: once the header passes the four checks, parse_wav_file never
returns an error because of a sample: it returns Ok, the returned
samples are (in order) a subsequence of the successfully decoded input
samples, and every successfully decoded sample is kept. -/
theorem parse_wav_file_discards_bad_samples (header : WavHeader)
    (data : List (Except String Int)) (hv : validHeader header) :
    ∃ l, parse_wav_file header data = Except.ok l ∧
      (l.map (fun v => (Except.ok v : Except String Int))).Sublist data ∧
      ∀ v : Int, (Except.ok v : Except String Int) ∈ data → v ∈ l := by
  obtain ⟨h1, h2, h3, h4⟩ := hv
  refine ⟨data.filterMap Except.toOption, by simp [parse_wav_file, h1, h2, h3, h4],
    filterMap_toOption_sublist data, ?_⟩
  intro v hv
  exact List.mem_filterMap.mpr ⟨Except.ok v, hv, rfl⟩

theorem parse_wav_file_discards_bad_samples_witness :
    validHeader ⟨1, SampleFormat.Int, 16000, 16⟩ ∧
      parse_wav_file ⟨1, SampleFormat.Int, 16000, 16⟩
        [Except.ok 3, Except.error "bad sample", Except.ok 5] = Except.ok [3, 5] ∧
      ∃ l, parse_wav_file ⟨1, SampleFormat.Int, 16000, 16⟩
          [Except.ok 3, Except.error "bad sample", Except.ok 5] = Except.ok l ∧
        (l.map (fun v => (Except.ok v : Except String Int))).Sublist
          [Except.ok 3, Except.error "bad sample", Except.ok 5] ∧
        ∀ v : Int,
          (Except.ok v : Except String Int) ∈
            [Except.ok 3, Except.error "bad sample", Except.ok 5] → v ∈ l :=
  ⟨by decide, rfl,
    parse_wav_file_discards_bad_samples ⟨1, SampleFormat.Int, 16000, 16⟩
      [Except.ok 3, Except.error "bad sample", Except.ok 5] (by decide)⟩

/-! ## Claim C5: structure of the generated SRT document. -/

/-- Helper: unrolling the write loop of generate_srt_file from index i
with k segments left produces the spec document of those k segments
numbered from i+1 by position. -/
theorem srtLoop_eq_docFrom (st : WhisperStateM) (k : Nat) :
    ∀ i : Nat, srtLoop st i k =
      srtDocFrom (i + 1)
        ((List.range' i k).map
          (fun j => Segment.mk (st.seg_text j) (st.seg_t0 j) (st.seg_t1 j))) := by
  induction k with
  | zero => intro i; rfl
  | succ k ih =>
    intro i
    rw [List.range'_succ]
    simp only [List.map_cons, srtLoop, srtDocFrom, srtBlock]
    rw [ih (i + 1)]

/-- C5: for every engine state with N segments, the document written by
generate_srt_file is exactly the spec-side SRT document of the segment
sequence: N blocks in input order, block k consisting of the positional
1-based number k, the START --> END line of the centisecond timestamps
divided by 100 and formatted, the trimmed text, and one blank line. -/
theorem generate_srt_file_spec (st : WhisperStateM) :
    generate_srt_file st = srtDoc (segments st) := by
  rw [generate_srt_file, srtDoc, segments, List.range_eq_range']
  exact srtLoop_eq_docFrom st st.n_segments 0

/-! ## Claim C4: format_timestamp at 3661.234. -/

/-- C4 counterexample: on the binary64 value that the Rust literal
3661.234 denotes, format_timestamp does not return "01:01:01,234". -/
theorem format_timestamp_3661_234_not_234 :
    format_timestamp (roundF64 (mkRat 3661234 1000)) ≠ "01:01:01,234" := by decide

/-- C4 (amended): format_timestamp applied to the f64 input 3661.234
returns "01:01:01,233": hours, minutes and seconds are the truncations
1, 1, 1, and the millisecond field is floor((s mod 1) * 1000) = 233,
because the binary64 value nearest to 3661.234 is slightly below the
decimal value, so (s mod 1) * 1000 evaluates to about 233.9999999999236,
which truncates to 233, not 234. -/
theorem format_timestamp_3661_234 :
    format_timestamp (roundF64 (mkRat 3661234 1000)) = "01:01:01,233" := by decide

end SubtitleGen
